import Mathlib

/-!
Verification of the similarity-matching core of `criar_campanha.py`: the text
normalizer `normalize_bairro`, the adjacency table `BAIRRO_RAIO_MAP`, the
similarity resolver `get_imoveis_semelhantes` (geo path and adjacency-fallback
path, with per-code memoization), and the dispatcher loop of `executar`.

Modelling conventions:
* Numeric values (prices, coordinates, distances) live in an arbitrary
  `LinearOrderedField α`; theorems about executable behaviour instantiate
  `α := ℚ`, the distance-formula theorem instantiates `α := ℝ`.
* Python dicts are association lists; `dict.get` is `dget`.
* A row's nullable columns are `Option` fields.  The extra key `'distancia'`
  that the geo path inserts into a *copy* of a row is the `distancia` field,
  `none` on every row as loaded.
* The distance computation is a parameter `dist : α × α → α × α → Except Unit α`:
  `math.acos` raises `ValueError` when floating-point rounding pushes its
  argument outside `[-1, 1]` (e.g. on identical coordinates), and an exception
  anywhere inside the `try` block aborts the whole computation, so `dist` is
  fallible.  The exact-real formula itself (`distanciaCosEsferico`) is total.
* `load_all_imoveis` / `load_all_coordenadas` perform external database I/O;
  the state's caches stand for the post-load snapshots.
-/

namespace CriarCampanha

/-- NFKD decomposition (`unicodedata.normalize('NFKD', ...)`, line 43)
restricted to the accented Latin characters occurring in this file's string
literals: each accented letter decomposes into its base letter followed by a
combining mark, and the combining mark is not alphanumeric, so after the
alphanumeric filter of line 44 only the base letter survives.  `stripAccent`
returns that base letter, and is the identity on every other character. -/
def stripAccent (c : Char) : Char :=
  if c = 'á' ∨ c = 'â' ∨ c = 'ã' ∨ c = 'à' ∨ c = 'ä' then 'a'
  else if c = 'é' ∨ c = 'ê' ∨ c = 'è' ∨ c = 'ë' then 'e'
  else if c = 'í' ∨ c = 'î' ∨ c = 'ì' ∨ c = 'ï' then 'i'
  else if c = 'ó' ∨ c = 'ô' ∨ c = 'õ' ∨ c = 'ò' ∨ c = 'ö' then 'o'
  else if c = 'ú' ∨ c = 'û' ∨ c = 'ù' ∨ c = 'ü' then 'u'
  else if c = 'ç' then 'c'
  else if c = 'Á' ∨ c = 'Â' ∨ c = 'Ã' ∨ c = 'À' ∨ c = 'Ä' then 'A'
  else if c = 'É' ∨ c = 'Ê' ∨ c = 'È' ∨ c = 'Ë' then 'E'
  else if c = 'Í' ∨ c = 'Î' ∨ c = 'Ì' ∨ c = 'Ï' then 'I'
  else if c = 'Ó' ∨ c = 'Ô' ∨ c = 'Õ' ∨ c = 'Ò' ∨ c = 'Ö' then 'O'
  else if c = 'Ú' ∨ c = 'Û' ∨ c = 'Ù' ∨ c = 'Ü' then 'U'
  else if c = 'Ç' then 'C'
  else c

/-- `normalize_bairro` (lines 39-45): `None`/empty input yields `None`
(`if not nome: return None`); otherwise NFKD-decompose, keep alphanumeric
characters, lowercase.  The input is `Option String` because callers pass
possibly-`None` values (`imovel.get('BairroComercial')`). -/
def normalize_bairro (nome : Option String) : Option String :=
  match nome with
  | none => none
  | some s =>
    if s = "" then none
    else some ⟨((s.data.map stripAccent).filter Char.isAlphanum).map Char.toLower⟩

/-- `BAIRRO_RAIO_MAP` (lines 48-125), verbatim.  A Python dict literal with
distinct keys, modelled as an association list. -/
def BAIRRO_RAIO_MAP : List (String × List String) :=
  [("auxiliadora",
    ["Auxiliadora", "Mont Serrat", "Bela Vista", "Moinhos de Vento",
     "Independência", "Rio Branco", "Boa Vista"]),
   ("belavista",
    ["Bela Vista", "Mont Serrat", "Petrópolis", "Auxiliadora",
     "Boa Vista", "Moinhos de Vento", "Chácara das Pedras"]),
   ("boavista",
    ["Boa Vista", "Bela Vista", "Mont Serrat", "Chácara das Pedras",
     "Três Figueiras", "Petrópolis", "Passo da Areia"]),
   ("bomfim",
    ["Bom Fim", "Independência", "Rio Branco",
     "Moinhos de Vento", "Higienópolis", "Jardim Botânico"]),
   ("centralparque",
    ["Central Parque", "Jardim do Salso", "Jardim Botânico",
     "Petrópolis", "Partenon", "Agronomia"]),
   ("centralpark",
    ["Central Parque", "Jardim do Salso", "Jardim Botânico",
     "Petrópolis", "Partenon", "Agronomia"]),
   ("chacaradaspedras",
    ["Chácara das Pedras", "Três Figueiras", "Boa Vista",
     "Bela Vista", "Petrópolis", "Higienópolis"]),
   ("passodareia",
    ["Passo da Areia", "Boa Vista", "Chácara das Pedras",
     "Cristo Redentor", "Jardim Europa"]),
   ("tresfigueiras",
    ["Três Figueiras", "Boa Vista", "Chácara das Pedras",
     "Bela Vista", "Petrópolis", "Mont Serrat"]),
   ("meninodeus",
    ["Menino Deus", "Praia de Belas", "Santana",
     "Azenha", "Centro Histórico", "Cidade Baixa"]),
   ("higienopolis",
    ["Higienópolis", "Petrópolis", "Moinhos de Vento",
     "Bom Fim", "Jardim Botânico", "Santana"]),
   ("independencia",
    ["Independência", "Bom Fim", "Centro Histórico",
     "Moinhos de Vento", "Floresta", "Rio Branco"]),
   ("jardimbotanico",
    ["Jardim Botânico", "Petrópolis", "Jardim Europa",
     "Jardim do Salso", "Partenon", "Central Parque"]),
   ("jardimeuropa",
    ["Jardim Europa", "Chácara das Pedras", "Boa Vista",
     "Três Figueiras", "Passo da Areia", "Petrópolis"]),
   ("moinhosdevento",
    ["Moinhos de Vento", "Bela Vista", "Mont Serrat",
     "Independência", "Auxiliadora", "Rio Branco"]),
   ("montserrat",
    ["Mont Serrat", "Bela Vista", "Auxiliadora",
     "Moinhos de Vento", "Boa Vista", "Petrópolis"]),
   ("petropolis",
    ["Petrópolis", "Bela Vista", "Mont Serrat",
     "Boa Vista", "Jardim Botânico", "Três Figueiras", "Chácara das Pedras"]),
   ("riobranco",
    ["Rio Branco", "Bom Fim", "Independência",
     "Moinhos de Vento", "Mont Serrat", "Petrópolis"]),
   ("ipanema",
    ["Ipanema", "Cavalhada", "Pedra Redonda",
     "Tristeza", "Vila Assunção", "Jardim Isabel"])]

/-- A row of `tb_imoveis` as held in the caches (`SELECT` of lines 176-182):
nullable columns are `Option`; `codigo` is the `str(...)` image of `Codigo`.
`distancia` is the extra key the geo path adds to a *copy* of a row
(line 317-318); it is `none` on every row as loaded. -/
structure Imovel (α : Type) where
  codigo : String
  dormitorios : Option Int := none
  areaPrivativa : Option α := none
  valorVenda : Option α := none
  foto : Option String := none
  tituloSite : Option String := none
  endereco : Option String := none
  bairroComercial : Option String := none
  distancia : Option α := none
deriving DecidableEq

/-- The mutable caches of `MailchimpCampanha` (lines 161-164):
`_imoveis_list`, `_coords_by_codigo` (already filtered to non-null pairs at
load, lines 213-218), and the memo `_semelhantes_cache`. -/
structure CampState (α : Type) where
  imoveisList : List (Imovel α)
  coordsByCodigo : List (String × (α × α))
  semelhantesCache : List (String × List (Imovel α))
deriving DecidableEq

/-- Python `dict.get` / `in` on a string-keyed dict, on the association-list
model.  Insertion is cons, so lookup takes the most recent binding. -/
def dget {β : Type} (l : List (String × β)) (k : String) : Option β :=
  match l with
  | [] => none
  | (k', v) :: rest => if k' = k then some v else dget rest k

/-- `_imoveis_by_codigo` is built by the comprehension
`{str(r['Codigo']): r for r in rows}` (line 187): a later row with the same
code overwrites an earlier one, so lookup finds the last matching row. -/
def byCodigo {α : Type} (rows : List (Imovel α)) (c : String) : Option (Imovel α) :=
  rows.reverse.find? (fun r => r.codigo == c)

variable {α : Type} [LinearOrderedField α]

/-- The pre-distance filters of the geo loop body (lines 298-309): skip self;
skip when `Foto` or `TituloSite` is null; skip when either price is null
(`valor_c is None or alvo_valor is None`) or the candidate price is outside
`[alvo*0.65, alvo*1.35]`; then look up the candidate's cached coordinate
(`if not coord: continue` - `None` on a miss, a present pair is truthy).
Returns the coordinate when every filter passes. -/
def geoCandCheck (coords : List (String × (α × α))) (codigoKey : String)
    (alvoValor : Option α) (cand : Imovel α) : Option (α × α) :=
  if cand.codigo = codigoKey then none
  else if cand.foto = none ∨ cand.tituloSite = none then none
  else
    match cand.valorVenda with
    | none => none
    | some valorC =>
      match alvoValor with
      | none => none
      | some alvo =>
        if alvo * (65 / 100) ≤ valorC ∧ valorC ≤ alvo * (135 / 100) then
          dget coords cand.codigo
        else none

/-- The geo-path candidate loop (lines 297-319).  For each candidate passing
`geoCandCheck`, compute the distance (fallibly - an exception aborts the whole
scan) and keep a copy annotated with `distancia` when the distance is at
most 5. -/
def geoScan (dist : α × α → α × α → Except Unit α)
    (coords : List (String × (α × α))) (codigoKey : String)
    (alvoValor : Option α) (p0 : α × α) :
    List (Imovel α) → Except Unit (List (Imovel α))
  | [] => Except.ok []
  | cand :: rest =>
    match geoCandCheck coords codigoKey alvoValor cand with
    | none => geoScan dist coords codigoKey alvoValor p0 rest
    | some pc =>
      match dist p0 pc with
      | Except.error e => Except.error e
      | Except.ok d =>
        match geoScan dist coords codigoKey alvoValor p0 rest with
        | Except.error e => Except.error e
        | Except.ok tail =>
          if d ≤ 5 then
            Except.ok ({ cand with distancia := some d } :: tail)
          else
            Except.ok tail

/-- The sort key of line 321: `x.get('distancia', 9999)`. -/
def keyDist (r : Imovel α) : α := r.distancia.getD 9999

/-- Insert `r` into an already key-sorted list, after every element with a
strictly smaller key and before every element with an equal or larger key. -/
def insereNivel (r : Imovel α) : List (Imovel α) → List (Imovel α)
  | [] => [r]
  | x :: xs =>
    if keyDist x < keyDist r then x :: insereNivel r xs
    else r :: x :: xs

/-- `nivel.sort(key=lambda x: x.get('distancia', 9999))` (line 321): Python's
sort is the unique stable ascending reordering, modelled here by a stable
insertion sort - each element is inserted into the sorted later elements
before any element of equal key, which is exactly the stable ascending
order. -/
def sortNivel : List (Imovel α) → List (Imovel α)
  | [] => []
  | x :: xs => insereNivel x (sortNivel xs)

/-- Lines 325-334: the allowed-area set of the fallback path.  The target's own
normalized area is added when truthy (line 329-330); the normalized neighbors
from `BAIRRO_RAIO_MAP` are added when the table has the key (lines 331-334),
each filtered through the truthiness guard of the comprehension.  Modelled as a
list used only through membership and emptiness, matching the Python set. -/
def allowedNormsOf (bairro : Option String) : List String :=
  let bairroNorm := normalize_bairro bairro
  let base :=
    match bairroNorm with
    | some bn => if bn = "" then [] else [bn]
    | none => []
  let raioRecomendado :=
    match bairroNorm with
    | some bn => dget BAIRRO_RAIO_MAP bn
    | none => none
  let neigh :=
    match raioRecomendado with
    | some lst =>
      lst.filterMap (fun b =>
        match normalize_bairro (some b) with
        | some nb => if nb = "" then none else some nb
        | none => none)
    | none => []
  base ++ neigh

/-- The per-candidate test of the fallback loop (lines 337-352): skip self,
completeness gate, price band, then - when the allowed set is non-empty -
membership of the candidate's truthy normalized area in the allowed set, and
otherwise plain equality of (possibly null) normalized areas. -/
def fallbackPass (codigoKey : String) (alvoValor : Option α)
    (bairroNorm : Option String) (allowed : List String) (cand : Imovel α) : Bool :=
  if cand.codigo = codigoKey then false
  else if cand.foto = none ∨ cand.tituloSite = none then false
  else
    match cand.valorVenda with
    | none => false
    | some valorC =>
      match alvoValor with
      | none => false
      | some alvo =>
        if alvo * (65 / 100) ≤ valorC ∧ valorC ≤ alvo * (135 / 100) then
          if allowed.isEmpty then
            normalize_bairro cand.bairroComercial == bairroNorm
          else
            match normalize_bairro cand.bairroComercial with
            | none => false
            | some s => if s = "" then false else decide (s ∈ allowed)
        else false

/-- The fallback collection loop (lines 336-355): append passing candidates in
catalog order and `break` as soon as 4 are collected.  `fuel` is the remaining
capacity (4 at the top-level call). -/
def fbScan (p : Imovel α → Bool) (fuel : Nat) : List (Imovel α) → List (Imovel α)
  | [] => []
  | cand :: rest =>
    if p cand then
      if fuel ≤ 1 then [cand]
      else cand :: fbScan p (fuel - 1) rest
    else fbScan p fuel rest

/-- The whole adjacency-fallback branch (lines 323-355): `bairro_norm` and
`allowed_norms` are computed from the target's area, then the collection loop
runs over the catalog snapshot. -/
def fallbackSemelhantes (st : CampState α) (imovel : Imovel α) : List (Imovel α) :=
  fbScan
    (fallbackPass imovel.codigo imovel.valorVenda
      (normalize_bairro imovel.bairroComercial)
      (allowedNormsOf imovel.bairroComercial))
    4 st.imoveisList

/-- The body of the `try` block (lines 285-355).  `get_coordenadas_imovel`
returns `(None, None)` on a cache miss, and the branch condition of line 289 is
Python truthiness `if lat_origem and lon_origem:` - so the geo path runs only
when the coordinate is present with both components nonzero; otherwise the
fallback runs.  The geo path sorts by distance and truncates to 4. -/
def computeSemelhantes (dist : α × α → α × α → Except Unit α)
    (st : CampState α) (imovel : Imovel α) : Except Unit (List (Imovel α)) :=
  match dget st.coordsByCodigo imovel.codigo with
  | some p0 =>
    if p0.1 ≠ 0 ∧ p0.2 ≠ 0 then
      match geoScan dist st.coordsByCodigo imovel.codigo imovel.valorVenda p0
          st.imoveisList with
      | Except.error e => Except.error e
      | Except.ok nivel => Except.ok ((sortNivel nivel).take 4)
    else Except.ok (fallbackSemelhantes st imovel)
  | none => Except.ok (fallbackSemelhantes st imovel)

/-- `get_imoveis_semelhantes` (lines 273-362).  Memo hit returns the cached
list unchanged (lines 277-278).  On a miss the `try` body computes the result
and line 357-358 writes it (even when empty) into `_semelhantes_cache`; if an
exception is raised anywhere inside the `try`, the `except` branch returns `[]`
without touching the memo (lines 360-362). -/
def get_imoveis_semelhantes (dist : α × α → α × α → Except Unit α)
    (st : CampState α) (imovel : Imovel α) : List (Imovel α) × CampState α :=
  match dget st.semelhantesCache imovel.codigo with
  | some cached => (cached, st)
  | none =>
    match computeSemelhantes dist st imovel with
    | Except.ok semelhantes =>
      (semelhantes,
        { st with
            semelhantesCache := (imovel.codigo, semelhantes) :: st.semelhantesCache })
    | Except.error _ => ([], st)

/-- A lead row as used by `processar_um` (line 586-615): only the email and
the digits-only product code `mkt_produto_formatado` matter here. -/
structure Lead where
  email : String
  mkt_produto_formatado : Option String := none
deriving DecidableEq

/-- The tri-state outcome of `processar_um`: `'ok'`, `'skip'`, `'erro'`. -/
inductive Outcome where
  | ok
  | skip
  | erro
deriving DecidableEq

/-- The counters of `executar` (line 578): `atualizados`, `skipped`, `errors`. -/
structure Stats where
  atualizados : Nat
  skipped : Nat
  errors : Nat
deriving DecidableEq

/-- `processar_um` (lines 586-615).  `applyOk` is the external Mailchimp
side effect `atualizar_campos_imoveis`: `True` leads to outcome `'ok'` (a
failing tag update at line 613-615 is still `'ok'`), `False` to `'erro'`.
`if not codigo` catches a null or empty code. -/
def processar_um (dist : α × α → α × α → Except Unit α)
    (applyOk : Lead → List (Imovel α) → Bool)
    (st : CampState α) (lead : Lead) : Outcome × CampState α :=
  match lead.mkt_produto_formatado with
  | none => (Outcome.skip, st)
  | some codigo =>
    if codigo = "" then (Outcome.skip, st)
    else
      match byCodigo st.imoveisList codigo with
      | none => (Outcome.skip, st)
      | some imovel =>
        if (get_imoveis_semelhantes dist st imovel).1.isEmpty then
          (Outcome.skip, (get_imoveis_semelhantes dist st imovel).2)
        else if applyOk lead (get_imoveis_semelhantes dist st imovel).1 then
          (Outcome.ok, (get_imoveis_semelhantes dist st imovel).2)
        else (Outcome.erro, (get_imoveis_semelhantes dist st imovel).2)

/-- One accumulation step of the `as_completed` tally (lines 619-627). -/
def bump (s : Stats) : Outcome → Stats
  | Outcome.ok => { s with atualizados := s.atualizados + 1 }
  | Outcome.skip => { s with skipped := s.skipped + 1 }
  | Outcome.erro => { s with errors := s.errors + 1 }

/-- One lead's contribution to the dispatch: run `processar_um` and tally its
outcome. -/
def passoDispatch (dist : α × α → α × α → Except Unit α)
    (applyOk : Lead → List (Imovel α) → Bool) :
    Stats × CampState α → Lead → Stats × CampState α :=
  fun acc lead =>
    (bump acc.1 (processar_um dist applyOk acc.2 lead).1,
      (processar_um dist applyOk acc.2 lead).2)

/-- The dispatch-and-tally of `executar` (lines 617-627): every lead is
processed exactly once and contributes exactly one outcome.  The thread pool's
completion order only permutes commutative counter increments, so the batch is
modelled as a fold in input order. -/
def executarStats (dist : α × α → α × α → Except Unit α)
    (applyOk : Lead → List (Imovel α) → Bool)
    (st0 : CampState α) (leads : List Lead) : Stats × CampState α :=
  leads.foldl (passoDispatch dist applyOk) (⟨0, 0, 0⟩, st0)

/-- A lead that carries a product code but has no catalog entry for it:
`processar_um` skips it (`Imóvel {codigo} não encontrado`, line 594). -/
def leadSemCatalogo (rows : List (Imovel α)) (l : Lead) : Bool :=
  match l.mkt_produto_formatado with
  | none => false
  | some c => !(c == "") && (byCodigo rows c).isNone

/-- How many leads of a batch have a product code with no catalog entry. -/
def contaMiss (rows : List (Imovel α)) (leads : List Lead) : Nat :=
  (leads.filter (leadSemCatalogo rows)).length

/-- `math.radians` (used at lines 292-293, 313-314). -/
noncomputable def radiansDe (x : ℝ) : ℝ := x * (Real.pi / 180)

/-- The spherical-law-of-cosines distance of lines 312-315, angles in radians,
result in kilometers:
`6371 * acos(cos(lat1)*cos(lat2)*cos(lon2 - lon1) + sin(lat1)*sin(lat2))`. -/
noncomputable def distanciaCosEsferico (lat1 lon1 lat2 lon2 : ℝ) : ℝ :=
  6371 * Real.arccos
    (Real.cos lat1 * Real.cos lat2 * Real.cos (lon2 - lon1) +
      Real.sin lat1 * Real.sin lat2)

/-- The distance function the source actually passes over the scan: the
spherical-law-of-cosines formula applied to the radian images of the two
degree coordinate pairs.  In exact-real semantics the `acos` argument is the
cosine of the central angle, always within `[-1, 1]`, so this `dist` is total. -/
noncomputable def distSLC (p q : ℝ × ℝ) : Except Unit ℝ :=
  Except.ok
    (distanciaCosEsferico (radiansDe p.1) (radiansDe p.2) (radiansDe q.1)
      (radiansDe q.2))

/-! ### Helper lemmas about the scans, the sort and the resolver's branches -/

omit [LinearOrderedField α] in
theorem fbScan_eq_filter_take (p : Imovel α → Bool) (l : List (Imovel α)) :
    ∀ fuel : Nat, 1 ≤ fuel → fbScan p fuel l = (l.filter p).take fuel := by
  induction l with
  | nil => intro fuel _; simp [fbScan]
  | cons cand rest ih =>
    intro fuel hf
    by_cases hp : p cand
    · rw [fbScan, if_pos hp, List.filter_cons_of_pos hp]
      match fuel, hf with
      | 1, _ => simp
      | (n + 2), _ =>
        have hn : ¬ (n + 2 ≤ 1) := by omega
        rw [if_neg hn]
        have hs : n + 2 - 1 = n + 1 := rfl
        rw [hs, ih (n + 1) (by omega)]
        rfl
    · rw [fbScan, if_neg hp, List.filter_cons_of_neg hp, ih fuel hf]

theorem fallbackPass_eq_true {ck : String} {av : Option α} {bn : Option String}
    {allowed : List String} {cand : Imovel α}
    (h : fallbackPass ck av bn allowed cand = true) :
    cand.codigo ≠ ck ∧ cand.foto ≠ none ∧ cand.tituloSite ≠ none ∧
    (∃ alvo valorC, av = some alvo ∧ cand.valorVenda = some valorC ∧
      alvo * (65 / 100) ≤ valorC ∧ valorC ≤ alvo * (135 / 100)) ∧
    ((allowed = [] ∧ normalize_bairro cand.bairroComercial = bn) ∨
     (allowed ≠ [] ∧ ∃ s, normalize_bairro cand.bairroComercial = some s ∧
       s ≠ "" ∧ s ∈ allowed)) := by
  unfold fallbackPass at h
  split at h
  · exact absurd h (by simp)
  · split at h
    · exact absurd h (by simp)
    · rename_i h1 h2
      push_neg at h2
      split at h
      · exact absurd h (by simp)
      · rename_i valorC hv
        split at h
        · exact absurd h (by simp)
        · rename_i alvo
          split at h
          · rename_i hband
            refine ⟨h1, h2.1, h2.2, ⟨alvo, valorC, rfl, hv, hband.1, hband.2⟩, ?_⟩
            split at h
            · rename_i hemp
              left
              refine ⟨List.isEmpty_iff.mp hemp, ?_⟩
              exact eq_of_beq h
            · rename_i hemp
              right
              refine ⟨fun hne => hemp (by simp [hne]), ?_⟩
              split at h
              · exact absurd h (by simp)
              · rename_i s hs
                split at h
                · exact absurd h (by simp)
                · rename_i hse
                  exact ⟨s, hs, hse, of_decide_eq_true h⟩
          · exact absurd h (by simp)

theorem fallbackSemelhantes_length (st : CampState α) (imovel : Imovel α) :
    (fallbackSemelhantes st imovel).length ≤ 4 := by
  unfold fallbackSemelhantes
  rw [fbScan_eq_filter_take _ _ 4 (by omega)]
  exact List.length_take_le 4 _

theorem fallbackSemelhantes_mem {st : CampState α} {imovel r : Imovel α}
    (hr : r ∈ fallbackSemelhantes st imovel) :
    r ∈ st.imoveisList ∧
    fallbackPass imovel.codigo imovel.valorVenda
      (normalize_bairro imovel.bairroComercial)
      (allowedNormsOf imovel.bairroComercial) r = true := by
  unfold fallbackSemelhantes at hr
  rw [fbScan_eq_filter_take _ _ 4 (by omega)] at hr
  have hm := (List.take_sublist 4 _).subset hr
  exact ⟨(List.mem_filter.mp hm).1, (List.mem_filter.mp hm).2⟩

theorem geoCandCheck_eq_some {coords : List (String × (α × α))} {ck : String}
    {av : Option α} {cand : Imovel α} {pc : α × α}
    (h : geoCandCheck coords ck av cand = some pc) :
    cand.codigo ≠ ck ∧ cand.foto ≠ none ∧ cand.tituloSite ≠ none ∧
    (∃ alvo valorC, av = some alvo ∧ cand.valorVenda = some valorC ∧
      alvo * (65 / 100) ≤ valorC ∧ valorC ≤ alvo * (135 / 100)) ∧
    dget coords cand.codigo = some pc := by
  unfold geoCandCheck at h
  split at h
  · exact absurd h (by simp)
  · split at h
    · exact absurd h (by simp)
    · rename_i h1 h2
      push_neg at h2
      split at h
      · exact absurd h (by simp)
      · rename_i valorC hv
        split at h
        · exact absurd h (by simp)
        · rename_i alvo
          split at h
          · rename_i hband
            exact ⟨h1, h2.1, h2.2, ⟨alvo, valorC, rfl, hv, hband.1, hband.2⟩, h⟩
          · exact absurd h (by simp)

theorem geoCandCheck_none_alvo (coords : List (String × (α × α))) (ck : String)
    (cand : Imovel α) : geoCandCheck coords ck none cand = none := by
  unfold geoCandCheck
  split
  · rfl
  · split
    · rfl
    · rcases hv : cand.valorVenda with _ | v <;> rfl

theorem geoScan_ok_mem {dist : α × α → α × α → Except Unit α}
    {coords : List (String × (α × α))} {ck : String} {av : Option α} {p0 : α × α} :
    ∀ {l nivel : List (Imovel α)},
      geoScan dist coords ck av p0 l = Except.ok nivel →
      ∀ r ∈ nivel, ∃ cand, cand ∈ l ∧
        ∃ pc d, geoCandCheck coords ck av cand = some pc ∧
          dist p0 pc = Except.ok d ∧ d ≤ 5 ∧
          r = { cand with distancia := some d } := by
  intro l
  induction l with
  | nil =>
    intro nivel h r hr
    rw [geoScan] at h
    have hn := Except.ok.inj h
    subst hn
    simp at hr
  | cons cand rest ih =>
    intro nivel h r hr
    rw [geoScan] at h
    split at h
    · obtain ⟨c, hc, hrest⟩ := ih h r hr
      exact ⟨c, List.mem_cons_of_mem _ hc, hrest⟩
    · rename_i pc hpc
      split at h
      · exact Except.noConfusion h
      · rename_i d hd
        split at h
        · exact Except.noConfusion h
        · rename_i tail htail
          split at h
          · rename_i hd5
            have hn := Except.ok.inj h
            subst hn
            rcases List.mem_cons.mp hr with hr1 | hr2
            · exact ⟨cand, List.mem_cons_self _ _, pc, d, hpc, hd, hd5, hr1⟩
            · obtain ⟨c, hc, hrest⟩ := ih htail r hr2
              exact ⟨c, List.mem_cons_of_mem _ hc, hrest⟩
          · have hn := Except.ok.inj h
            subst hn
            obtain ⟨c, hc, hrest⟩ := ih htail r hr
            exact ⟨c, List.mem_cons_of_mem _ hc, hrest⟩

theorem geoScan_none_alvo (dist : α × α → α × α → Except Unit α)
    (coords : List (String × (α × α))) (ck : String) (p0 : α × α) :
    ∀ l : List (Imovel α), geoScan dist coords ck none p0 l = Except.ok [] := by
  intro l
  induction l with
  | nil => rw [geoScan]
  | cons cand rest ih =>
    rw [geoScan, geoCandCheck_none_alvo]
    exact ih

theorem geoScan_total_ok {dist : α × α → α × α → Except Unit α}
    (hdist : ∀ p q, ∃ d, dist p q = Except.ok d)
    (coords : List (String × (α × α))) (ck : String) (av : Option α) (p0 : α × α) :
    ∀ l : List (Imovel α), ∃ nivel, geoScan dist coords ck av p0 l = Except.ok nivel := by
  intro l
  induction l with
  | nil => exact ⟨[], rfl⟩
  | cons cand rest ih =>
    obtain ⟨tail, htail⟩ := ih
    rw [geoScan]
    split
    · exact ⟨tail, htail⟩
    · rename_i pc hpc
      obtain ⟨d, hd⟩ := hdist p0 pc
      by_cases h5 : d ≤ 5
      · exact ⟨{ cand with distancia := some d } :: tail, by simp [hd, htail, h5]⟩
      · exact ⟨tail, by simp [hd, htail, h5]⟩

theorem insereNivel_mem {a r : Imovel α} {l : List (Imovel α)} :
    a ∈ insereNivel r l ↔ a = r ∨ a ∈ l := by
  induction l with
  | nil => simp [insereNivel]
  | cons x xs ih =>
    rw [insereNivel]
    split
    · rw [List.mem_cons, ih, List.mem_cons]
      tauto
    · rw [List.mem_cons]

theorem sortNivel_mem {r : Imovel α} {nivel : List (Imovel α)} :
    r ∈ sortNivel nivel ↔ r ∈ nivel := by
  induction nivel with
  | nil => simp [sortNivel]
  | cons x xs ih =>
    rw [sortNivel, insereNivel_mem, ih]
    simp

theorem insereNivel_pairwise {r : Imovel α} {l : List (Imovel α)}
    (h : l.Pairwise (fun a b => keyDist a ≤ keyDist b)) :
    (insereNivel r l).Pairwise (fun a b => keyDist a ≤ keyDist b) := by
  induction l with
  | nil => simp [insereNivel]
  | cons x xs ih =>
    rw [insereNivel]
    rw [List.pairwise_cons] at h
    split
    · rename_i hlt
      rw [List.pairwise_cons]
      refine ⟨?_, ih h.2⟩
      intro y hy
      rcases insereNivel_mem.mp hy with hy | hy
      · subst hy
        exact le_of_lt hlt
      · exact h.1 y hy
    · rename_i hge
      rw [List.pairwise_cons]
      refine ⟨?_, List.pairwise_cons.mpr h⟩
      intro y hy
      rcases List.mem_cons.mp hy with hy | hy
      · subst hy
        exact not_lt.mp hge
      · exact le_trans (not_lt.mp hge) (h.1 y hy)

theorem sortNivel_sorted (nivel : List (Imovel α)) :
    (sortNivel nivel).Pairwise (fun a b => keyDist a ≤ keyDist b) := by
  induction nivel with
  | nil => simp [sortNivel]
  | cons x xs ih =>
    rw [sortNivel]
    exact insereNivel_pairwise ih

theorem computeSemelhantes_geo {dist : α × α → α × α → Except Unit α}
    {st : CampState α} {imovel : Imovel α} {p0 : α × α}
    (hc : dget st.coordsByCodigo imovel.codigo = some p0)
    (h1 : p0.1 ≠ 0) (h2 : p0.2 ≠ 0) :
    computeSemelhantes dist st imovel =
      match geoScan dist st.coordsByCodigo imovel.codigo imovel.valorVenda p0
          st.imoveisList with
      | Except.error e => Except.error e
      | Except.ok nivel => Except.ok ((sortNivel nivel).take 4) := by
  unfold computeSemelhantes
  rw [hc]
  exact if_pos ⟨h1, h2⟩

theorem computeSemelhantes_fb {dist : α × α → α × α → Except Unit α}
    {st : CampState α} {imovel : Imovel α}
    (hc : dget st.coordsByCodigo imovel.codigo = none ∨
      ∃ p0, dget st.coordsByCodigo imovel.codigo = some p0 ∧ (p0.1 = 0 ∨ p0.2 = 0)) :
    computeSemelhantes dist st imovel = Except.ok (fallbackSemelhantes st imovel) := by
  unfold computeSemelhantes
  rcases hc with hc | ⟨p0, hc, h0⟩
  · rw [hc]
  · rw [hc]
    refine if_neg ?_
    rintro ⟨hn1, hn2⟩
    rcases h0 with h0 | h0
    · exact hn1 h0
    · exact hn2 h0

theorem get_imoveis_semelhantes_hit {dist : α × α → α × α → Except Unit α}
    {st : CampState α} {imovel : Imovel α} {r : List (Imovel α)}
    (h : dget st.semelhantesCache imovel.codigo = some r) :
    get_imoveis_semelhantes dist st imovel = (r, st) := by
  unfold get_imoveis_semelhantes
  rw [h]

theorem get_imoveis_semelhantes_ok {dist : α × α → α × α → Except Unit α}
    {st : CampState α} {imovel : Imovel α} {l : List (Imovel α)}
    (hm : dget st.semelhantesCache imovel.codigo = none)
    (h : computeSemelhantes dist st imovel = Except.ok l) :
    get_imoveis_semelhantes dist st imovel =
      (l, { st with semelhantesCache := (imovel.codigo, l) :: st.semelhantesCache }) := by
  unfold get_imoveis_semelhantes
  rw [hm, h]

theorem get_imoveis_semelhantes_err {dist : α × α → α × α → Except Unit α}
    {st : CampState α} {imovel : Imovel α} {e : Unit}
    (hm : dget st.semelhantesCache imovel.codigo = none)
    (h : computeSemelhantes dist st imovel = Except.error e) :
    get_imoveis_semelhantes dist st imovel = ([], st) := by
  unfold get_imoveis_semelhantes
  rw [hm, h]

omit [LinearOrderedField α] in
theorem dget_mem {β : Type} {l : List (String × β)} {k : String} {v : β}
    (h : dget l k = some v) : (k, v) ∈ l := by
  induction l with
  | nil => exact Option.noConfusion h
  | cons p rest ih =>
    obtain ⟨k', v'⟩ := p
    rw [dget] at h
    split at h
    · rename_i heq
      have hv := Option.some.inj h
      subst hv
      subst heq
      exact List.mem_cons_self _ _
    · exact List.mem_cons_of_mem _ (ih h)

theorem fallbackPass_none_alvo (ck : String) (bn : Option String)
    (allowed : List String) (cand : Imovel α) :
    fallbackPass ck none bn allowed cand = false := by
  unfold fallbackPass
  split
  · rfl
  · split
    · rfl
    · rcases hv : cand.valorVenda with _ | v <;> rfl

theorem fallbackSemelhantes_none_alvo {st : CampState α} {imovel : Imovel α}
    (h : imovel.valorVenda = none) : fallbackSemelhantes st imovel = [] := by
  unfold fallbackSemelhantes
  rw [h]
  rw [fbScan_eq_filter_take _ _ 4 (by omega)]
  have hf : ∀ cand ∈ st.imoveisList,
      ¬ (fallbackPass imovel.codigo none (normalize_bairro imovel.bairroComercial)
          (allowedNormsOf imovel.bairroComercial) cand = true) := by
    intro cand _
    rw [fallbackPass_none_alvo]
    simp
  rw [List.filter_eq_nil_iff.mpr hf]
  rfl

theorem computeSemelhantes_none_alvo {dist : α × α → α × α → Except Unit α}
    {st : CampState α} {imovel : Imovel α} (h : imovel.valorVenda = none) :
    computeSemelhantes dist st imovel = Except.ok [] := by
  rcases hco : dget st.coordsByCodigo imovel.codigo with _ | p0
  · rw [computeSemelhantes_fb (Or.inl hco), fallbackSemelhantes_none_alvo h]
  · by_cases hz : p0.1 ≠ 0 ∧ p0.2 ≠ 0
    · rw [computeSemelhantes_geo hco hz.1 hz.2, h, geoScan_none_alvo]
      rfl
    · have h0 : p0.1 = 0 ∨ p0.2 = 0 := by
        by_contra hcon
        push_neg at hcon
        exact hz hcon
      rw [computeSemelhantes_fb (Or.inr ⟨p0, hco, h0⟩), fallbackSemelhantes_none_alvo h]

/-- Shared shape of both compute paths: at most 4 results, none of them the
target itself, and every result's price inside the band of the target's
price. -/
theorem computeSemelhantes_ok_props {dist : α × α → α × α → Except Unit α}
    {st : CampState α} {imovel : Imovel α} {l : List (Imovel α)}
    (hc : computeSemelhantes dist st imovel = Except.ok l) :
    l.length ≤ 4 ∧
    ∀ r ∈ l, r.codigo ≠ imovel.codigo ∧
      ∃ alvo valorC, imovel.valorVenda = some alvo ∧ r.valorVenda = some valorC ∧
        alvo * (65 / 100) ≤ valorC ∧ valorC ≤ alvo * (135 / 100) := by
  have hfb : computeSemelhantes dist st imovel
        = Except.ok (fallbackSemelhantes st imovel) →
      l.length ≤ 4 ∧
      ∀ r ∈ l, r.codigo ≠ imovel.codigo ∧
        ∃ alvo valorC, imovel.valorVenda = some alvo ∧ r.valorVenda = some valorC ∧
          alvo * (65 / 100) ≤ valorC ∧ valorC ≤ alvo * (135 / 100) := by
    intro hq
    rw [hq] at hc
    have hl := Except.ok.inj hc
    subst hl
    refine ⟨fallbackSemelhantes_length st imovel, ?_⟩
    intro r hr
    obtain ⟨_, hpass⟩ := fallbackSemelhantes_mem hr
    obtain ⟨hcod, _, _, ⟨alvo, valorC, ha, hv, hb1, hb2⟩, _⟩ :=
      fallbackPass_eq_true hpass
    exact ⟨hcod, alvo, valorC, ha, hv, hb1, hb2⟩
  rcases hco : dget st.coordsByCodigo imovel.codigo with _ | p0
  · exact hfb (computeSemelhantes_fb (Or.inl hco))
  · by_cases hz : p0.1 ≠ 0 ∧ p0.2 ≠ 0
    · rw [computeSemelhantes_geo hco hz.1 hz.2] at hc
      rcases hg : geoScan dist st.coordsByCodigo imovel.codigo imovel.valorVenda p0
          st.imoveisList with e | nivel
      · rw [hg] at hc
        exact Except.noConfusion hc
      · rw [hg] at hc
        have hl := Except.ok.inj hc
        subst hl
        refine ⟨List.length_take_le 4 _, ?_⟩
        intro r hr
        have hr2 : r ∈ nivel :=
          sortNivel_mem.mp ((List.take_sublist 4 _).subset hr)
        obtain ⟨cand, _, pc, d, hchk, _, _, hreq⟩ := geoScan_ok_mem hg r hr2
        obtain ⟨hcod, _, _, ⟨alvo, valorC, ha, hv, hb1, hb2⟩, _⟩ :=
          geoCandCheck_eq_some hchk
        subst hreq
        exact ⟨hcod, alvo, valorC, ha, hv, hb1, hb2⟩
    · have h0 : p0.1 = 0 ∨ p0.2 = 0 := by
        by_contra hcon
        push_neg at hcon
        exact hz hcon
      exact hfb (computeSemelhantes_fb (Or.inr ⟨p0, hco, h0⟩))

/-- Resolving never touches the catalog or coordinate snapshots: only the memo
is (possibly) extended. -/
theorem get_imoveis_semelhantes_frame (dist : α × α → α × α → Except Unit α)
    (st : CampState α) (imovel : Imovel α) :
    (get_imoveis_semelhantes dist st imovel).2.imoveisList = st.imoveisList ∧
    (get_imoveis_semelhantes dist st imovel).2.coordsByCodigo = st.coordsByCodigo := by
  unfold get_imoveis_semelhantes
  split
  · exact ⟨rfl, rfl⟩
  · split
    · exact ⟨rfl, rfl⟩
    · exact ⟨rfl, rfl⟩

omit [LinearOrderedField α] in
theorem bump_total (s : Stats) (o : Outcome) :
    (bump s o).atualizados + (bump s o).skipped + (bump s o).errors
      = s.atualizados + s.skipped + s.errors + 1 := by
  cases o <;> simp [bump] <;> omega

omit [LinearOrderedField α] in
theorem bump_skipped_ge (s : Stats) (o : Outcome) : s.skipped ≤ (bump s o).skipped := by
  cases o <;> simp [bump]

theorem processar_um_frame (dist : α × α → α × α → Except Unit α)
    (applyOk : Lead → List (Imovel α) → Bool) (st : CampState α) (lead : Lead) :
    (processar_um dist applyOk st lead).2.imoveisList = st.imoveisList := by
  unfold processar_um
  split
  · rfl
  · split
    · rfl
    · split
      · rfl
      · split
        · exact (get_imoveis_semelhantes_frame _ _ _).1
        · split
          · exact (get_imoveis_semelhantes_frame _ _ _).1
          · exact (get_imoveis_semelhantes_frame _ _ _).1

theorem processar_um_skip_miss {dist : α × α → α × α → Except Unit α}
    {applyOk : Lead → List (Imovel α) → Bool} {st : CampState α} {lead : Lead}
    (h : leadSemCatalogo st.imoveisList lead = true) :
    processar_um dist applyOk st lead = (Outcome.skip, st) := by
  unfold leadSemCatalogo at h
  rcases hmk : lead.mkt_produto_formatado with _ | c
  · rw [hmk] at h
    exact absurd h (by simp)
  · rw [hmk] at h
    simp only [Bool.and_eq_true, Bool.not_eq_true', beq_eq_false_iff_ne,
      Option.isNone_iff_eq_none] at h
    simp [processar_um, hmk, h.1, h.2]

theorem dispatch_foldl_props (dist : α × α → α × α → Except Unit α)
    (applyOk : Lead → List (Imovel α) → Bool) :
    ∀ (leads : List Lead) (s0 : Stats) (st0 : CampState α),
      ((leads.foldl (passoDispatch dist applyOk) (s0, st0)).1.atualizados +
        (leads.foldl (passoDispatch dist applyOk) (s0, st0)).1.skipped +
        (leads.foldl (passoDispatch dist applyOk) (s0, st0)).1.errors
          = s0.atualizados + s0.skipped + s0.errors + leads.length) ∧
      s0.skipped + contaMiss st0.imoveisList leads ≤
        (leads.foldl (passoDispatch dist applyOk) (s0, st0)).1.skipped ∧
      (leads.foldl (passoDispatch dist applyOk) (s0, st0)).2.imoveisList
        = st0.imoveisList := by
  intro leads
  induction leads with
  | nil =>
    intro s0 st0
    simp [contaMiss]
  | cons lead rest ih =>
    intro s0 st0
    have hstep : passoDispatch dist applyOk (s0, st0) lead
        = (bump s0 (processar_um dist applyOk st0 lead).1,
          (processar_um dist applyOk st0 lead).2) := rfl
    rw [List.foldl_cons, hstep]
    obtain ⟨hsum, hskip, hframe⟩ :=
      ih (bump s0 (processar_um dist applyOk st0 lead).1)
        (processar_um dist applyOk st0 lead).2
    have hpframe : (processar_um dist applyOk st0 lead).2.imoveisList
        = st0.imoveisList := processar_um_frame dist applyOk st0 lead
    rw [hpframe] at hskip hframe
    refine ⟨?_, ?_, hframe⟩
    · rw [hsum, bump_total]
      simp [List.length_cons]
      omega
    · have hcm : contaMiss st0.imoveisList (lead :: rest)
          = (if leadSemCatalogo st0.imoveisList lead = true then 1 else 0)
            + contaMiss st0.imoveisList rest := by
        unfold contaMiss
        rw [List.filter_cons]
        split
        · simp [List.length_cons]
          omega
        · simp
      rw [hcm]
      by_cases hmiss : leadSemCatalogo st0.imoveisList lead = true
      · rw [if_pos hmiss]
        have hproc := @processar_um_skip_miss α _ dist applyOk st0 lead hmiss
        rw [hproc] at hskip
        have hb : (bump s0 (Outcome.skip, st0).1).skipped = s0.skipped + 1 := rfl
        rw [hb] at hskip
        rw [hproc]
        omega
      · rw [if_neg hmiss]
        have hge := bump_skipped_ge s0 (processar_um dist applyOk st0 lead).1
        omega

/-! ### The claims -/

/-- The invariant the resolver's memo always satisfies (every entry was itself
produced by the resolver): at most 4 records, none carrying the code that keys
the entry. -/
def memoInv (st : CampState α) : Prop :=
  ∀ p ∈ st.semelhantesCache, p.2.length ≤ 4 ∧ ∀ r ∈ p.2, r.codigo ≠ p.1

/-- C1: for every target, `get_imoveis_semelhantes` returns at most 4 results,
and no returned result carries the target's own code - the geo path truncates
with `nivel[:4]` and skips self at line 298, the adjacency-fallback path breaks
at 4 and skips self at line 337, and a memo hit returns an entry the resolver
itself produced earlier (hypothesis `memoInv`). -/
theorem resolver_no_maximo_quatro_sem_self (dist : α × α → α × α → Except Unit α)
    (st : CampState α) (imovel : Imovel α) (hinv : memoInv st) :
    (get_imoveis_semelhantes dist st imovel).1.length ≤ 4 ∧
    ∀ r ∈ (get_imoveis_semelhantes dist st imovel).1, r.codigo ≠ imovel.codigo := by
  rcases hm : dget st.semelhantesCache imovel.codigo with _ | cached
  · rcases hcp : computeSemelhantes dist st imovel with e | l
    · rw [get_imoveis_semelhantes_err hm hcp]
      simp
    · rw [get_imoveis_semelhantes_ok hm hcp]
      obtain ⟨hlen, hall⟩ := computeSemelhantes_ok_props hcp
      exact ⟨hlen, fun r hr => (hall r hr).1⟩
  · rw [get_imoveis_semelhantes_hit hm]
    exact hinv _ (dget_mem hm)

/-- C3: on both resolver paths every returned candidate's price lies inside
`[alvo*0.65, alvo*1.35]` (lines 302-305 and 341-344), a null price on either
side excludes the candidate, and a target with a null price matches nothing. -/
theorem resolver_faixa_preco (dist : α × α → α × α → Except Unit α)
    (st : CampState α) (imovel : Imovel α)
    (hm : dget st.semelhantesCache imovel.codigo = none) :
    (∀ r ∈ (get_imoveis_semelhantes dist st imovel).1,
      ∃ alvo valorC, imovel.valorVenda = some alvo ∧ r.valorVenda = some valorC ∧
        alvo * (65 / 100) ≤ valorC ∧ valorC ≤ alvo * (135 / 100)) ∧
    (imovel.valorVenda = none → (get_imoveis_semelhantes dist st imovel).1 = []) := by
  constructor
  · rcases hcp : computeSemelhantes dist st imovel with e | l
    · rw [get_imoveis_semelhantes_err hm hcp]
      simp
    · rw [get_imoveis_semelhantes_ok hm hcp]
      intro r hr
      exact ((computeSemelhantes_ok_props hcp).2 r hr).2
  · intro hnone
    rw [get_imoveis_semelhantes_ok hm (computeSemelhantes_none_alvo hnone)]

/-- C4 (amended): when the first call does not take the exception branch
(it either hits the memo or its computation succeeds), it memoizes its result -
an empty result included - and any later call for the same code returns that
memoized value unchanged, whatever the catalog, coordinate snapshot or distance
function look like by then.  (When the first call raises, nothing is memoized
and a later call recomputes - see the error-handling claim.) -/
theorem resolver_memoizado (dist distSegunda : α × α → α × α → Except Unit α)
    (st st2 : CampState α) (imovel : Imovel α)
    (hok : (∃ r, dget st.semelhantesCache imovel.codigo = some r) ∨
      ∃ l, computeSemelhantes dist st imovel = Except.ok l)
    (hmemo : st2.semelhantesCache =
      (get_imoveis_semelhantes dist st imovel).2.semelhantesCache) :
    (get_imoveis_semelhantes distSegunda st2 imovel).1 =
      (get_imoveis_semelhantes dist st imovel).1 := by
  rcases hok with ⟨r, hr⟩ | ⟨l, hl⟩
  · have h2 : dget st2.semelhantesCache imovel.codigo = some r := by
      rw [hmemo, get_imoveis_semelhantes_hit hr]
      exact hr
    rw [get_imoveis_semelhantes_hit h2, get_imoveis_semelhantes_hit hr]
  · rcases hm : dget st.semelhantesCache imovel.codigo with _ | c
    · have h2 : dget st2.semelhantesCache imovel.codigo = some l := by
        rw [hmemo, get_imoveis_semelhantes_ok hm hl]
        simp [dget]
      rw [get_imoveis_semelhantes_hit h2, get_imoveis_semelhantes_ok hm hl]
    · have h2 : dget st2.semelhantesCache imovel.codigo = some c := by
        rw [hmemo, get_imoveis_semelhantes_hit hm]
        exact hm
      rw [get_imoveis_semelhantes_hit h2, get_imoveis_semelhantes_hit hm]

/-- C5 (amended): for a target whose cached coordinate has BOTH components
nonzero (the source's guard is Python truthiness, `if lat_origem and
lon_origem:`, line 289 - not mere presence in the cache), the resolver's result
is exactly the geo computation: the sorted-truncated scan when it succeeds, the
empty list when zero candidates qualify within 5 km (no adjacency fallback),
and the empty list when the scan raises. -/
theorem resolver_geo_sem_fallback (dist : α × α → α × α → Except Unit α)
    (st : CampState α) (imovel : Imovel α) (p0 : α × α)
    (hm : dget st.semelhantesCache imovel.codigo = none)
    (hc : dget st.coordsByCodigo imovel.codigo = some p0)
    (h1 : p0.1 ≠ 0) (h2 : p0.2 ≠ 0) :
    (∀ nivel, geoScan dist st.coordsByCodigo imovel.codigo imovel.valorVenda p0
        st.imoveisList = Except.ok nivel →
      (get_imoveis_semelhantes dist st imovel).1 = (sortNivel nivel).take 4) ∧
    (geoScan dist st.coordsByCodigo imovel.codigo imovel.valorVenda p0
        st.imoveisList = Except.ok [] →
      (get_imoveis_semelhantes dist st imovel).1 = []) ∧
    (∀ e, geoScan dist st.coordsByCodigo imovel.codigo imovel.valorVenda p0
        st.imoveisList = Except.error e →
      get_imoveis_semelhantes dist st imovel = ([], st)) := by
  refine ⟨?_, ?_, ?_⟩
  · intro nivel hg
    have hcp : computeSemelhantes dist st imovel
        = Except.ok ((sortNivel nivel).take 4) := by
      rw [computeSemelhantes_geo hc h1 h2, hg]
    rw [get_imoveis_semelhantes_ok hm hcp]
  · intro hg
    have hcp : computeSemelhantes dist st imovel
        = Except.ok ((sortNivel ([] : List (Imovel α))).take 4) := by
      rw [computeSemelhantes_geo hc h1 h2, hg]
    rw [get_imoveis_semelhantes_ok hm hcp]
    rfl
  · intro e hg
    have hcp : computeSemelhantes dist st imovel = Except.error e := by
      rw [computeSemelhantes_geo hc h1 h2, hg]
    exact get_imoveis_semelhantes_err hm hcp

/-- C9: resolving never mutates the catalog snapshot (or the coordinate
snapshot): on the geo path the distance is attached to a copy (`item =
dict(cand)`, lines 317-318) of a catalog record and the snapshot keeps its
entries; on the adjacency path the returned records are the snapshot entries
themselves, unmodified. -/
theorem resolver_copia_sem_mutacao (dist : α × α → α × α → Except Unit α)
    (st : CampState α) (imovel : Imovel α)
    (hm : dget st.semelhantesCache imovel.codigo = none) :
    (get_imoveis_semelhantes dist st imovel).2.imoveisList = st.imoveisList ∧
    (get_imoveis_semelhantes dist st imovel).2.coordsByCodigo = st.coordsByCodigo ∧
    (∀ p0, dget st.coordsByCodigo imovel.codigo = some p0 → p0.1 ≠ 0 → p0.2 ≠ 0 →
      ∀ r ∈ (get_imoveis_semelhantes dist st imovel).1,
        ∃ cand d, cand ∈ st.imoveisList ∧ r = { cand with distancia := some d }) ∧
    ((dget st.coordsByCodigo imovel.codigo = none ∨
      ∃ p0, dget st.coordsByCodigo imovel.codigo = some p0 ∧ (p0.1 = 0 ∨ p0.2 = 0)) →
      ∀ r ∈ (get_imoveis_semelhantes dist st imovel).1, r ∈ st.imoveisList) := by
  refine ⟨(get_imoveis_semelhantes_frame dist st imovel).1,
    (get_imoveis_semelhantes_frame dist st imovel).2, ?_, ?_⟩
  · intro p0 hc h1 h2 r hr
    rcases hcp : computeSemelhantes dist st imovel with e | l
    · rw [get_imoveis_semelhantes_err hm hcp] at hr
      simp at hr
    · rw [get_imoveis_semelhantes_ok hm hcp] at hr
      rw [computeSemelhantes_geo hc h1 h2] at hcp
      rcases hg : geoScan dist st.coordsByCodigo imovel.codigo imovel.valorVenda p0
          st.imoveisList with e | nivel
      · rw [hg] at hcp
        exact Except.noConfusion hcp
      · rw [hg] at hcp
        have hl := Except.ok.inj hcp
        subst hl
        have hr2 : r ∈ nivel :=
          sortNivel_mem.mp ((List.take_sublist 4 _).subset hr)
        obtain ⟨cand, hcand, pc, d, hchk, hdist, hd5, hreq⟩ := geoScan_ok_mem hg r hr2
        exact ⟨cand, d, hcand, hreq⟩
  · intro hfb r hr
    rw [get_imoveis_semelhantes_ok hm (computeSemelhantes_fb hfb)] at hr
    exact (fallbackSemelhantes_mem hr).1

/-- C10: when an exception is raised inside the resolver's `try` body, the
`except` branch returns the empty list and the memo is left untouched for that
code (the write of line 357-358 never runs), so a later call for the same code
recomputes and returns the freshly computed value rather than the error
result. -/
theorem resolver_excecao_sem_memo (dist : α × α → α × α → Except Unit α)
    (st : CampState α) (imovel : Imovel α) (e : Unit)
    (hm : dget st.semelhantesCache imovel.codigo = none)
    (herr : computeSemelhantes dist st imovel = Except.error e) :
    get_imoveis_semelhantes dist st imovel = ([], st) ∧
    ∀ (distSegunda : α × α → α × α → Except Unit α) (l : List (Imovel α)),
      computeSemelhantes distSegunda st imovel = Except.ok l →
      (get_imoveis_semelhantes distSegunda st imovel).1 = l := by
  refine ⟨get_imoveis_semelhantes_err hm herr, ?_⟩
  intro distSegunda l hl
  rw [get_imoveis_semelhantes_ok hm hl]

/-- C2: on the geo path (run with the source's spherical-law-of-cosines
distance `distSLC` over exact reals), the result list is sorted in
non-decreasing order of the attached `distancia` value, every attached
distance is the formula `6371 * acos(cos lat1 * cos lat2 * cos(lon2 - lon1) +
sin lat1 * sin lat2)` applied to the radian images of the target's and the
candidate's cached coordinates, and every attached distance is at most 5. -/
theorem resolver_geo_ordenado_limite_formula (st : CampState ℝ) (imovel : Imovel ℝ)
    (p0 : ℝ × ℝ)
    (hm : dget st.semelhantesCache imovel.codigo = none)
    (hc : dget st.coordsByCodigo imovel.codigo = some p0)
    (h1 : p0.1 ≠ 0) (h2 : p0.2 ≠ 0) :
    ((get_imoveis_semelhantes distSLC st imovel).1).Pairwise
      (fun a b => keyDist a ≤ keyDist b) ∧
    ∀ r ∈ (get_imoveis_semelhantes distSLC st imovel).1,
      ∃ cand pc, cand ∈ st.imoveisList ∧
        dget st.coordsByCodigo cand.codigo = some pc ∧
        r.distancia = some (distanciaCosEsferico (radiansDe p0.1) (radiansDe p0.2)
          (radiansDe pc.1) (radiansDe pc.2)) ∧
        ∃ d, r.distancia = some d ∧ d ≤ 5 := by
  have htotal : ∀ p q : ℝ × ℝ, ∃ d, distSLC p q = Except.ok d := fun p q =>
    ⟨distanciaCosEsferico (radiansDe p.1) (radiansDe p.2) (radiansDe q.1)
      (radiansDe q.2), rfl⟩
  obtain ⟨nivel, hg⟩ := geoScan_total_ok htotal st.coordsByCodigo
    imovel.codigo imovel.valorVenda p0 st.imoveisList
  have hcp : computeSemelhantes distSLC st imovel
      = Except.ok ((sortNivel nivel).take 4) := by
    rw [computeSemelhantes_geo hc h1 h2, hg]
  rw [get_imoveis_semelhantes_ok hm hcp]
  constructor
  · exact List.Pairwise.sublist (List.take_sublist 4 _) (sortNivel_sorted nivel)
  · intro r hr
    have hr2 : r ∈ nivel := sortNivel_mem.mp ((List.take_sublist 4 _).subset hr)
    obtain ⟨cand, hcand, pc, d, hchk, hdist, hd5, hreq⟩ := geoScan_ok_mem hg r hr2
    obtain ⟨_, _, _, _, hcoord⟩ := geoCandCheck_eq_some hchk
    have hform : distanciaCosEsferico (radiansDe p0.1) (radiansDe p0.2)
        (radiansDe pc.1) (radiansDe pc.2) = d := Except.ok.inj hdist
    subst hreq
    refine ⟨cand, pc, hcand, hcoord, ?_, d, rfl, hd5⟩
    rw [hform]

/-- C6 counterexample: for the key `"auxiliadora"` of `BAIRRO_RAIO_MAP`, the
area's own name `"Auxiliadora"` IS included in the stored neighbor list (it is
its first element), and it normalizes exactly to the key - so the claim that
the area's own name is never in its stored list, and that the key enters the
allowed set only through the caller's explicit add, is false on this code. -/
theorem bairro_mapa_proprio_contraexemplo :
    dget BAIRRO_RAIO_MAP "auxiliadora" =
      some ["Auxiliadora", "Mont Serrat", "Bela Vista", "Moinhos de Vento",
        "Independência", "Rio Branco", "Boa Vista"] ∧
    "Auxiliadora" ∈ ["Auxiliadora", "Mont Serrat", "Bela Vista",
      "Moinhos de Vento", "Independência", "Rio Branco", "Boa Vista"] ∧
    normalize_bairro (some "Auxiliadora") = some "auxiliadora" := by
  refine ⟨by decide, by decide, by decide⟩

/-- C6 (amended): with the two exceptions of the alias keys `"centralpark"`
and `"passodareia"` (whose lists open with `"Central Parque"` and
`"Passo da Areia"`, normalizing to `"centralparque"` and `"passodaareia"`,
not to those keys), every key of `BAIRRO_RAIO_MAP` does include its own area
name in the stored neighbor list; independently of that, the caller always
adds the target's own truthy normalized key to the allowed set explicitly
(lines 329-330). -/
theorem bairro_mapa_proprio_nome :
    (∀ p ∈ BAIRRO_RAIO_MAP, p.1 ≠ "centralpark" → p.1 ≠ "passodareia" →
      (some p.1) ∈ p.2.map (fun b => normalize_bairro (some b))) ∧
    ∀ (b : Option String) (bn : String), normalize_bairro b = some bn → bn ≠ "" →
      bn ∈ allowedNormsOf b := by
  constructor
  · decide
  · intro b bn h hne
    simp [allowedNormsOf, h, hne]

/-- C7: for a target with no cached coordinate and commercial area
`"Moinhos de Vento"`, every returned candidate's normalized area lies in
`{moinhosdevento, belavista, montserrat, independencia, auxiliadora,
riobranco}`; in particular a candidate with no recorded area (normalized
`None`) is never returned. -/
theorem fallback_moinhos_permitidos (dist : α × α → α × α → Except Unit α)
    (st : CampState α) (imovel : Imovel α)
    (hm : dget st.semelhantesCache imovel.codigo = none)
    (hc : dget st.coordsByCodigo imovel.codigo = none)
    (hb : imovel.bairroComercial = some "Moinhos de Vento") :
    ∀ r ∈ (get_imoveis_semelhantes dist st imovel).1,
      ∃ s, normalize_bairro r.bairroComercial = some s ∧
        s ∈ ["moinhosdevento", "belavista", "montserrat", "independencia",
          "auxiliadora", "riobranco"] := by
  intro r hr
  rw [get_imoveis_semelhantes_ok hm (computeSemelhantes_fb (Or.inl hc))] at hr
  obtain ⟨_, hpass⟩ := fallbackSemelhantes_mem hr
  obtain ⟨_, _, _, _, hmem⟩ := fallbackPass_eq_true hpass
  rcases hmem with ⟨hemp, _⟩ | ⟨_, s, hs, hse, hsm⟩
  · rw [hb] at hemp
    exact absurd hemp (by decide)
  · refine ⟨s, hs, ?_⟩
    rw [hb] at hsm
    have hall : allowedNormsOf (some "Moinhos de Vento") =
        "moinhosdevento" :: ["moinhosdevento", "belavista", "montserrat",
          "independencia", "auxiliadora", "riobranco"] := by decide
    rw [hall] at hsm
    rcases List.mem_cons.mp hsm with hfirst | hrest
    · subst hfirst
      exact List.mem_cons_self _ _
    · exact hrest

/-- C8: over any batch, every lead contributes exactly one of the three
outcomes, so the final counters satisfy `atualizados + skipped + errors = N`;
a lead whose product code has no catalog entry always yields `'skip'`, so such
leads are all counted inside `skipped`. -/
theorem dispatcher_contagens (dist : α × α → α × α → Except Unit α)
    (applyOk : Lead → List (Imovel α) → Bool) (st0 : CampState α)
    (leads : List Lead) :
    ((executarStats dist applyOk st0 leads).1.atualizados +
      (executarStats dist applyOk st0 leads).1.skipped +
      (executarStats dist applyOk st0 leads).1.errors = leads.length) ∧
    contaMiss st0.imoveisList leads ≤
      (executarStats dist applyOk st0 leads).1.skipped ∧
    ∀ lead, leadSemCatalogo st0.imoveisList lead = true →
      processar_um dist applyOk st0 lead = (Outcome.skip, st0) := by
  obtain ⟨hsum, hskip, _⟩ := dispatch_foldl_props dist applyOk leads ⟨0, 0, 0⟩ st0
  have e1 : (⟨0, 0, 0⟩ : Stats).atualizados = 0 := rfl
  have e2 : (⟨0, 0, 0⟩ : Stats).skipped = 0 := rfl
  have e3 : (⟨0, 0, 0⟩ : Stats).errors = 0 := rfl
  rw [e1, e2, e3] at hsum
  rw [e2] at hskip
  unfold executarStats
  refine ⟨by omega, by omega, ?_⟩
  intro lead hl
  exact @processar_um_skip_miss α _ dist applyOk st0 lead hl

/-! ### Concrete fixtures, counterexamples and witnesses -/

/-- A total rational distance oracle (always 0 km). -/
def distQ : ℚ × ℚ → ℚ × ℚ → Except Unit ℚ := fun _ _ => Except.ok 0

/-- A distance oracle that fails on identical coordinate pairs - the way
`math.acos` raises `ValueError` when floating-point rounding pushes the
law-of-cosines argument just above 1, which happens precisely on identical
coordinates. -/
def distFalha : ℚ × ℚ → ℚ × ℚ → Except Unit ℚ := fun p q =>
  if p = q then Except.error () else Except.ok 1

def imovelT : Imovel ℚ := { codigo := "t", valorVenda := some 100 }

def stVazio : CampState ℚ := ⟨[], [], []⟩

def stGeoQ : CampState ℚ := ⟨[], [("t", (1, 1))], []⟩

def candC : Imovel ℚ :=
  { codigo := "c", valorVenda := some 100, foto := some "f",
    tituloSite := some "s" }

def stFalhaA : CampState ℚ := ⟨[candC], [("t", (1, 1)), ("c", (1, 1))], []⟩

def stFalhaB : CampState ℚ := ⟨[candC], [("t", (1, 1)), ("c", (1, 2))], []⟩

def imovelIpanema : Imovel ℚ :=
  { codigo := "t", valorVenda := some 100, bairroComercial := some "Ipanema" }

def candIpanema : Imovel ℚ :=
  { codigo := "c", valorVenda := some 100, foto := some "f",
    tituloSite := some "s", bairroComercial := some "Ipanema" }

def stZero : CampState ℚ := ⟨[candIpanema], [("t", (0, 10))], []⟩

def imovelMoinhos : Imovel ℚ :=
  { codigo := "t", valorVenda := some 100,
    bairroComercial := some "Moinhos de Vento" }

def candBelaVista : Imovel ℚ :=
  { codigo := "c", valorVenda := some 100, foto := some "f",
    tituloSite := some "s", bairroComercial := some "Bela Vista" }

def stMoinhos : CampState ℚ := ⟨[candBelaVista], [], []⟩

def stR : CampState ℝ := ⟨[], [("t", (1, 1))], []⟩

def imovelTR : Imovel ℝ := { codigo := "t" }

/-- C4 counterexample: the first call hits the `except` branch (the distance
computation fails on the identical coordinate pair, as `math.acos` does),
returns `[]` and memoizes nothing; a second call for the same target code,
with the memo exactly as the first call left it but the coordinate snapshot
mutated, succeeds and returns a non-empty list.  So calling the resolver twice
with the same target identifier does NOT always return identical results. -/
theorem resolver_memoizado_contraexemplo :
    (get_imoveis_semelhantes distFalha stFalhaA imovelT).1 = [] ∧
    stFalhaB.semelhantesCache =
      (get_imoveis_semelhantes distFalha stFalhaA imovelT).2.semelhantesCache ∧
    (get_imoveis_semelhantes distFalha stFalhaB imovelT).1 =
      [{ candC with distancia := some 1 }] := by
  refine ⟨?_, ?_, ?_⟩ <;>
    norm_num +decide [get_imoveis_semelhantes, computeSemelhantes, geoScan,
      geoCandCheck, sortNivel, insereNivel, dget, stFalhaA, stFalhaB, imovelT,
      candC, distFalha]

/-- C5 counterexample: the target's coordinate IS present in the coordinate
cache - `(0, 10)`, zero latitude, so the truthiness guard of line 289 fails -
yet the resolver returns an adjacency-fallback result: a candidate that has no
cached coordinate at all and no attached distance, which the geo strategy
could never return (under the claim, the result here would have been `[]`). -/
theorem resolver_geo_sem_fallback_contraexemplo :
    dget stZero.coordsByCodigo imovelIpanema.codigo = some (0, 10) ∧
    (get_imoveis_semelhantes distQ stZero imovelIpanema).1 = [candIpanema] ∧
    dget stZero.coordsByCodigo candIpanema.codigo = none ∧
    candIpanema.distancia = none := by
  refine ⟨?_, ?_, ?_, ?_⟩ <;>
    norm_num +decide [get_imoveis_semelhantes, computeSemelhantes,
      fallbackSemelhantes, fbScan, fallbackPass, allowedNormsOf,
      normalize_bairro, stripAccent, dget, BAIRRO_RAIO_MAP, stZero,
      imovelIpanema, candIpanema, distQ]

/-- C1 applied at a concrete input. -/
theorem resolver_no_maximo_quatro_sem_self_aplicado :
    (get_imoveis_semelhantes distQ stVazio imovelT).1.length ≤ 4 ∧
    ∀ r ∈ (get_imoveis_semelhantes distQ stVazio imovelT).1,
      r.codigo ≠ imovelT.codigo :=
  resolver_no_maximo_quatro_sem_self distQ stVazio imovelT
    (by intro p hp; simp [stVazio] at hp)

/-- C2 applied at a concrete input. -/
theorem resolver_geo_ordenado_limite_formula_aplicado :
    ((get_imoveis_semelhantes distSLC stR imovelTR).1).Pairwise
      (fun a b => keyDist a ≤ keyDist b) ∧
    ∀ r ∈ (get_imoveis_semelhantes distSLC stR imovelTR).1,
      ∃ cand pc, cand ∈ stR.imoveisList ∧
        dget stR.coordsByCodigo cand.codigo = some pc ∧
        r.distancia = some (distanciaCosEsferico (radiansDe (1 : ℝ))
          (radiansDe 1) (radiansDe pc.1) (radiansDe pc.2)) ∧
        ∃ d, r.distancia = some d ∧ d ≤ 5 :=
  resolver_geo_ordenado_limite_formula stR imovelTR (1, 1) rfl rfl
    one_ne_zero one_ne_zero

/-- C3 applied at a concrete input. -/
theorem resolver_faixa_preco_aplicado :
    (∀ r ∈ (get_imoveis_semelhantes distQ stVazio imovelT).1,
      ∃ alvo valorC, imovelT.valorVenda = some alvo ∧
        r.valorVenda = some valorC ∧
        alvo * (65 / 100) ≤ valorC ∧ valorC ≤ alvo * (135 / 100)) ∧
    (imovelT.valorVenda = none →
      (get_imoveis_semelhantes distQ stVazio imovelT).1 = []) :=
  resolver_faixa_preco distQ stVazio imovelT rfl

/-- C4 (amended) applied at a concrete input. -/
theorem resolver_memoizado_aplicado :
    (get_imoveis_semelhantes distQ
        (get_imoveis_semelhantes distQ stVazio imovelT).2 imovelT).1 =
      (get_imoveis_semelhantes distQ stVazio imovelT).1 :=
  resolver_memoizado distQ distQ stVazio
    (get_imoveis_semelhantes distQ stVazio imovelT).2 imovelT
    (Or.inr ⟨[], rfl⟩) rfl

/-- C5 (amended) applied at a concrete input. -/
theorem resolver_geo_sem_fallback_aplicado :
    (∀ nivel, geoScan distQ stGeoQ.coordsByCodigo imovelT.codigo
        imovelT.valorVenda (1, 1) stGeoQ.imoveisList = Except.ok nivel →
      (get_imoveis_semelhantes distQ stGeoQ imovelT).1 =
        (sortNivel nivel).take 4) ∧
    (geoScan distQ stGeoQ.coordsByCodigo imovelT.codigo imovelT.valorVenda
        (1, 1) stGeoQ.imoveisList = Except.ok [] →
      (get_imoveis_semelhantes distQ stGeoQ imovelT).1 = []) ∧
    (∀ e, geoScan distQ stGeoQ.coordsByCodigo imovelT.codigo imovelT.valorVenda
        (1, 1) stGeoQ.imoveisList = Except.error e →
      get_imoveis_semelhantes distQ stGeoQ imovelT = ([], stGeoQ)) :=
  resolver_geo_sem_fallback distQ stGeoQ imovelT (1, 1) rfl rfl
    one_ne_zero one_ne_zero

/-- C7 applied at a concrete input: the resolver run concretely returns the
Bela Vista candidate, and the theorem's guarantee holds of it. -/
theorem fallback_moinhos_permitidos_aplicado :
    ((get_imoveis_semelhantes distQ stMoinhos imovelMoinhos).1 =
      [candBelaVista]) ∧
    ∀ r ∈ (get_imoveis_semelhantes distQ stMoinhos imovelMoinhos).1,
      ∃ s, normalize_bairro r.bairroComercial = some s ∧
        s ∈ ["moinhosdevento", "belavista", "montserrat", "independencia",
          "auxiliadora", "riobranco"] :=
  ⟨by norm_num +decide [get_imoveis_semelhantes, computeSemelhantes,
      fallbackSemelhantes, fbScan, fallbackPass, allowedNormsOf,
      normalize_bairro, stripAccent, dget, BAIRRO_RAIO_MAP, stMoinhos,
      imovelMoinhos, candBelaVista, distQ],
    fallback_moinhos_permitidos distQ stMoinhos imovelMoinhos rfl rfl rfl⟩

/-- C9 applied at a concrete input. -/
theorem resolver_copia_sem_mutacao_aplicado :
    (get_imoveis_semelhantes distQ stFalhaB imovelT).2.imoveisList =
      stFalhaB.imoveisList ∧
    (get_imoveis_semelhantes distQ stFalhaB imovelT).2.coordsByCodigo =
      stFalhaB.coordsByCodigo ∧
    (∀ p0, dget stFalhaB.coordsByCodigo imovelT.codigo = some p0 →
      p0.1 ≠ 0 → p0.2 ≠ 0 →
      ∀ r ∈ (get_imoveis_semelhantes distQ stFalhaB imovelT).1,
        ∃ cand d, cand ∈ stFalhaB.imoveisList ∧
          r = { cand with distancia := some d }) ∧
    ((dget stFalhaB.coordsByCodigo imovelT.codigo = none ∨
      ∃ p0, dget stFalhaB.coordsByCodigo imovelT.codigo = some p0 ∧
        (p0.1 = 0 ∨ p0.2 = 0)) →
      ∀ r ∈ (get_imoveis_semelhantes distQ stFalhaB imovelT).1,
        r ∈ stFalhaB.imoveisList) :=
  resolver_copia_sem_mutacao distQ stFalhaB imovelT rfl

/-- C10 applied at a concrete input: the distance computation fails on the
identical coordinate pair. -/
theorem resolver_excecao_sem_memo_aplicado :
    get_imoveis_semelhantes distFalha stFalhaA imovelT = ([], stFalhaA) ∧
    ∀ (distSegunda : ℚ × ℚ → ℚ × ℚ → Except Unit ℚ) (l : List (Imovel ℚ)),
      computeSemelhantes distSegunda stFalhaA imovelT = Except.ok l →
      (get_imoveis_semelhantes distSegunda stFalhaA imovelT).1 = l :=
  resolver_excecao_sem_memo distFalha stFalhaA imovelT () rfl
    (by norm_num +decide [computeSemelhantes, geoScan, geoCandCheck, dget,
      stFalhaA, imovelT, candC, distFalha])

end CriarCampanha
